import Mathlib

/-!
Verification of the elektron price-proxy service (src/main.rs).

The development embeds the pure core of the service:
* the upstream record and chart-point data model,
* chrono's `DateTime::parse_from_rfc3339` (character-level grammar plus the
  calendar/time validation done by `Parsed::to_datetime`),
* the normalizer inside the `prices` handler,
* the `fetch` / `prices` control flow over an abstract upstream outcome,
* the `serve_font` handler over an abstract filesystem snapshot,
* the upstream URL builder.
-/

namespace Elektron

/-- Upstream record decoded from the API JSON (struct `PriceData`). -/
structure PriceData where
  nok_kwh : Float
  eur_kwh : Float
  time_start : String

/-- Downstream point emitted to the browser (struct `ChartDataPoint`). -/
structure ChartDataPoint where
  hour : Nat
  price : Float
  time : String
  price_nok : Float
  price_eur : Float

/-- Result of a successful RFC 3339 parse: the civil fields as stored by
chrono's `DateTime<FixedOffset>` (after leap-second normalization), plus the
offset in seconds. `hour` is the hour-of-day in the embedded offset, which is
what chrono's `Timelike::hour` returns. -/
structure Rfc3339 where
  year : Nat
  month : Nat
  day : Nat
  hour : Nat
  minute : Nat
  second : Nat
  nanosecond : Nat
  offset : Int
deriving DecidableEq, Repr

/-- Scan exactly `n` ASCII digits, accumulating their value
(chrono's `scan::number(s, n, n)`). -/
def scanExactDigits : Nat → Nat → List Char → Option (Nat × List Char)
  | 0, acc, cs => some (acc, cs)
  | n + 1, acc, c :: cs =>
      if c.isDigit then scanExactDigits n (acc * 10 + (c.toNat - 48)) cs else none
  | _ + 1, _, [] => none

/-- Consume one expected character (chrono's `scan::char`). -/
def expectChar (c : Char) : List Char → Option (List Char)
  | d :: cs => if d = c then some cs else none
  | [] => none

/-- Consume the date/time separator: `T`, `t` or space. -/
def scanTimeSep : List Char → Option (List Char)
  | c :: cs => if c = 'T' ∨ c = 't' ∨ c = ' ' then some cs else none
  | [] => none

/-- Value in nanoseconds of a fractional-second digit string; only the first
nine digits contribute (chrono's `scan::nanosecond`). -/
def nanoOfFracDigits (ds : List Char) : Nat :=
  ((ds.take 9).foldl (fun a c => a * 10 + (c.toNat - 48)) 0) * 10 ^ (9 - (ds.take 9).length)

/-- Optional fractional seconds: a dot followed by at least one digit; all
consecutive digits are consumed. -/
def scanFraction : List Char → Option (Nat × List Char)
  | '.' :: cs =>
      let ds := cs.takeWhile Char.isDigit
      if ds.isEmpty then none else some (nanoOfFracDigits ds, cs.dropWhile Char.isDigit)
  | cs => some (0, cs)

/-- Time-zone offset in seconds: `Z`/`z`, or a sign (`+`, `-`, or U+2212)
followed by two digits of hours (00–99), a colon, and two digits of minutes
bounded to 00–59 — chrono's `scan::timezone_offset` with a mandatory colon,
whose minutes arm rejects 60–99 as out of range. -/
def scanOffset : List Char → Option (Int × List Char)
  | [] => none
  | c :: cs =>
      if c = 'Z' ∨ c = 'z' then some (0, cs)
      else if c = '+' ∨ c = '-' ∨ c = '−' then
        match scanExactDigits 2 0 cs with
        | none => none
        | some (h, cs1) =>
          match expectChar ':' cs1 with
          | none => none
          | some cs2 =>
            match scanExactDigits 2 0 cs2 with
            | none => none
            | some (m, cs3) =>
              if 60 ≤ m then none
              else
                let secs : Int := ((h * 3600 + m * 60 : Nat) : Int)
                some (if c = '+' then secs else -secs, cs3)
      else none

/-- Proleptic-Gregorian leap-year test. -/
def isLeapYear (y : Nat) : Bool :=
  y % 4 == 0 && (y % 100 != 0 || y % 400 == 0)

/-- Number of days in a month. -/
def daysInMonth (y m : Nat) : Nat :=
  if m = 2 then (if isLeapYear y then 29 else 28)
  else if m = 4 ∨ m = 6 ∨ m = 9 ∨ m = 11 then 30
  else 31

/-- Field validation and leap-second normalization performed by chrono's
`Parsed::to_datetime`: the date must exist in the calendar, hour ≤ 23,
minute ≤ 59, second ≤ 60, with second 60 stored as 59 plus a nanosecond
overflow. -/
def mkRfc3339 (year month day hour minute second nano : Nat) (offset : Int) :
    Option Rfc3339 :=
  if 1 ≤ month ∧ month ≤ 12 ∧ 1 ≤ day ∧ day ≤ daysInMonth year month ∧
      hour ≤ 23 ∧ minute ≤ 59 ∧ second ≤ 60 then
    if second = 60 then
      some ⟨year, month, day, hour, minute, 59, nano + 1000000000, offset⟩
    else
      some ⟨year, month, day, hour, minute, second, nano, offset⟩
  else none

/-- Model of chrono's `DateTime::parse_from_rfc3339`: four-digit year,
two-digit month/day/hour/minute/second with fixed separators, optional
fraction, mandatory offset, offset strictly inside one day, full input
consumption, then field validation. -/
def parse_from_rfc3339 (s : String) : Option Rfc3339 :=
  match scanExactDigits 4 0 s.toList with
  | none => none
  | some (year, cs0) =>
  match expectChar '-' cs0 with
  | none => none
  | some cs1 =>
  match scanExactDigits 2 0 cs1 with
  | none => none
  | some (month, cs2) =>
  match expectChar '-' cs2 with
  | none => none
  | some cs3 =>
  match scanExactDigits 2 0 cs3 with
  | none => none
  | some (day, cs4) =>
  match scanTimeSep cs4 with
  | none => none
  | some cs5 =>
  match scanExactDigits 2 0 cs5 with
  | none => none
  | some (hour, cs6) =>
  match expectChar ':' cs6 with
  | none => none
  | some cs7 =>
  match scanExactDigits 2 0 cs7 with
  | none => none
  | some (minute, cs8) =>
  match expectChar ':' cs8 with
  | none => none
  | some cs9 =>
  match scanExactDigits 2 0 cs9 with
  | none => none
  | some (second, cs10) =>
  match scanFraction cs10 with
  | none => none
  | some (nano, cs11) =>
  match scanOffset cs11 with
  | none => none
  | some (offset, cs12) =>
  if offset ≤ -86400 ∨ 86400 ≤ offset then none
  else if !cs12.isEmpty then none
  else mkRfc3339 year month day hour minute second nano offset

/-- The per-record mapping inside the `prices` handler: derive the hour from
`time_start` (0 on parse failure), rescale the NOK price to øre, forward the
rest verbatim. -/
def toChartDataPoint (item : PriceData) : ChartDataPoint :=
  { hour :=
      match parse_from_rfc3339 item.time_start with
      | some dt => dt.hour
      | none => 0,
    price := item.nok_kwh * 100.0,
    time := item.time_start,
    price_nok := item.nok_kwh,
    price_eur := item.eur_kwh }

/-- The normalizer: the `data.into_iter().map(...).collect()` pipeline of the
`prices` handler. -/
def normalize (data : List PriceData) : List ChartDataPoint :=
  data.map toChartDataPoint

/-- If field validation succeeds, the stored hour is the scanned hour value
and it is at most 23 (leap-second normalization never touches the hour). -/
theorem mkRfc3339_hour {y mo d h mi se na : Nat} {off : Int} {dt : Rfc3339}
    (hmk : mkRfc3339 y mo d h mi se na off = some dt) : dt.hour = h ∧ h ≤ 23 := by
  unfold mkRfc3339 at hmk
  split at hmk
  · rename_i hc
    split at hmk <;> (cases hmk; exact ⟨rfl, hc.2.2.2.2.1⟩)
  · exact Option.noConfusion hmk

/-- Any successful parse stores an hour at most 23. -/
theorem parse_from_rfc3339_hour_le {s : String} {dt : Rfc3339}
    (h : parse_from_rfc3339 s = some dt) : dt.hour ≤ 23 := by
  unfold parse_from_rfc3339 at h
  repeat split at h <;> try exact Option.noConfusion h
  obtain ⟨h1, h2⟩ := mkRfc3339_hour h
  omega

/-- C1: for every upstream record, the emitted price is `nok_per_kwh * 100.0`
as a double-precision product, and `price_nok`, `price_eur` are forwarded
verbatim. -/
theorem normalize_price_fields (r : PriceData) :
    (normalize [r]).map (fun p => (p.price, p.price_nok, p.price_eur)) =
      [(r.nok_kwh * 100.0, r.nok_kwh, r.eur_kwh)] := rfl

/-- C2: if `time_start` parses under RFC 3339, the emitted hour is the
hour-of-day stored with the embedded offset, and it lies in 0..23. -/
theorem normalize_hour_parseable (r : PriceData) (dt : Rfc3339)
    (h : parse_from_rfc3339 r.time_start = some dt) :
    (normalize [r]).map ChartDataPoint.hour = [dt.hour] ∧ dt.hour ≤ 23 := by
  refine ⟨?_, parse_from_rfc3339_hour_le h⟩
  simp [normalize, toChartDataPoint, h]

/-- Witness for C2 at a concrete timestamp. -/
theorem normalize_hour_parseable_witness :
    parse_from_rfc3339 "2025-01-15T13:00:00+01:00" =
        some ⟨2025, 1, 15, 13, 0, 0, 0, 3600⟩ ∧
      ((normalize [⟨0.5, 0.05, "2025-01-15T13:00:00+01:00"⟩]).map ChartDataPoint.hour =
          [(⟨2025, 1, 15, 13, 0, 0, 0, 3600⟩ : Rfc3339).hour] ∧
        (⟨2025, 1, 15, 13, 0, 0, 0, 3600⟩ : Rfc3339).hour ≤ 23) :=
  ⟨by decide,
    normalize_hour_parseable ⟨0.5, 0.05, "2025-01-15T13:00:00+01:00"⟩ _ (by decide)⟩

/-- C3: normalization is total; on a parse failure the emitted hour is 0, the
other fields are produced by the same formulas as for a parseable record, and
the remaining records are still processed. -/
theorem normalize_unparseable_total (r : PriceData) (xs : List PriceData)
    (h : parse_from_rfc3339 r.time_start = none) :
    normalize (r :: xs) =
      { hour := 0, price := r.nok_kwh * 100.0, time := r.time_start,
        price_nok := r.nok_kwh, price_eur := r.eur_kwh } :: normalize xs := by
  simp [normalize, toChartDataPoint, h]

/-- Witness for C3 at a concrete unparseable timestamp. -/
theorem normalize_unparseable_total_witness :
    parse_from_rfc3339 "soon" = none ∧
      normalize [(⟨1.5, 0.25, "soon"⟩ : PriceData)] =
        [{ hour := 0, price := (1.5 : Float) * 100.0, time := "soon",
           price_nok := 1.5, price_eur := 0.25 }] :=
  ⟨by decide, normalize_unparseable_total ⟨1.5, 0.25, "soon"⟩ [] (by decide)⟩

/-- C4: normalization preserves length and order; the i-th output's `time`
is the i-th input's `time_start`, verbatim. -/
theorem normalize_preserves_length_and_time (xs : List PriceData) (i : Nat) :
    (normalize xs).length = xs.length ∧
      ((normalize xs)[i]?).map ChartDataPoint.time = (xs[i]?).map PriceData.time_start := by
  refine ⟨by simp [normalize], ?_⟩
  simp only [normalize, List.getElem?_map]
  cases xs[i]? <;> simp [toChartDataPoint]

/-- Outcome of the single upstream HTTPS GET, seen from `fetch`: either the
transport layer failed with an error message, or a response arrived with a
status code, the display text of that status, and the result of decoding the
body as a JSON array of `PriceData`. -/
inductive Upstream where
  | transportError (msg : String)
  | response (status : Nat) (statusText : String) (body : Except String (List PriceData))

/-- reqwest's `StatusCode::is_success`: 200..=299. -/
def statusIsSuccess (s : Nat) : Bool :=
  200 ≤ s && s < 300

/-- The `fetch` function: propagate transport errors, reject non-2xx statuses
with a formatted message, otherwise return the decode result. -/
def fetch (u : Upstream) : Except String (List PriceData) :=
  match u with
  | .transportError msg => .error msg
  | .response status statusText body =>
    if !statusIsSuccess status then
      .error ("API request failed with status: " ++ statusText)
    else
      body

/-- Response of `GET /prices`: a 200 JSON array of chart points, or a
plain-text error body with an explicit status code. -/
inductive PricesResponse where
  | jsonOk (points : List ChartDataPoint)
  | plainError (status : Nat) (body : String)

/-- HTTP status of a `PricesResponse`; `Json(chart).into_response()` is 200. -/
def responseStatus : PricesResponse → Nat
  | .jsonOk _ => 200
  | .plainError s _ => s

/-- The `prices` handler: normalize the fetched data, or map any fetch error
to a 500 with an `Error: {message}` body. -/
def prices (u : Upstream) : PricesResponse :=
  match fetch u with
  | .ok data => .jsonOk (normalize data)
  | .error e => .plainError 500 ("Error: " ++ e)

/-- C5: `/prices` answers 200 with the normalized JSON array whenever fetch
and decode succeed (including the empty array), and 500 with an
`Error: {message}` plain-text body on every failure — transport error,
non-2xx upstream status, or decode error. -/
theorem prices_endpoint_behavior (u : Upstream) :
    (∀ d, fetch u = .ok d →
      prices u = .jsonOk (normalize d) ∧ responseStatus (prices u) = 200) ∧
    (fetch u = .ok [] → prices u = .jsonOk []) ∧
    (∀ m, fetch u = .error m →
      prices u = .plainError 500 ("Error: " ++ m) ∧ responseStatus (prices u) = 500) ∧
    (∀ m, u = .transportError m → fetch u = .error m) ∧
    (∀ s t b, u = .response s t b → statusIsSuccess s = false →
      fetch u = .error ("API request failed with status: " ++ t)) ∧
    (∀ s t m, u = .response s t (.error m) → statusIsSuccess s = true →
      fetch u = .error m) := by
  refine ⟨fun d hd => ?_, fun he => ?_, fun m hm => ?_, fun m hm => ?_,
    fun s t b hu hs => ?_, fun s t m hu hs => ?_⟩
  · simp [prices, hd, responseStatus]
  · simp [prices, he, normalize]
  · simp [prices, hm, responseStatus]
  · simp [fetch, hm]
  · simp [fetch, hu, hs]
  · simp [fetch, hu, hs]

/-- Witness for C5: a successful empty fetch, a transport failure, and a
non-2xx upstream status, each at a concrete upstream outcome. -/
theorem prices_endpoint_behavior_witness :
    prices (.response 200 "200 OK" (.ok [])) = .jsonOk [] ∧
      prices (.transportError "connection refused") =
        .plainError 500 ("Error: " ++ "connection refused") ∧
      prices (.response 404 "404 Not Found" (.ok [])) =
        .plainError 500 ("Error: " ++ ("API request failed with status: " ++ "404 Not Found")) :=
  ⟨(prices_endpoint_behavior (.response 200 "200 OK" (.ok []))).2.1 rfl,
    ((prices_endpoint_behavior (.transportError "connection refused")).2.2.1
      "connection refused" rfl).1,
    ((prices_endpoint_behavior (.response 404 "404 Not Found" (.ok []))).2.2.1
      ("API request failed with status: " ++ "404 Not Found") rfl).1⟩

/-- The host's local civil date at the moment of the call
(`Local::now()` projected through `year()`, `month()`, `day()`). -/
structure LocalDate where
  year : Int
  month : Nat
  day : Nat

/-- Rust's `{:02}` formatting of an unsigned value: decimal digits, left
zero-padded to a minimum width of two. -/
def pad2 (n : Nat) : String :=
  if n < 10 then "0" ++ toString n else toString n

/-- The upstream URL built by `fetch` for a given local civil date. -/
def fetchUrl (d : LocalDate) : String :=
  "https://www.hvakosterstrommen.no/api/v1/prices/" ++ toString d.year ++ "/" ++
    pad2 d.month ++ "-" ++ pad2 d.day ++ "_NO2.json"

/-- Generic left zero-padding of a string to width two, following the spec's
words "month and day zero-padded to width 2". -/
def zeroPadWidth2 (s : String) : String :=
  if s.length < 2 then String.mk (List.replicate (2 - s.length) '0') ++ s else s

/-- Modelled from the spec: the URL template
`https://www.hvakosterstrommen.no/api/v1/prices/{YYYY}/{MM}-{DD}_NO2.json`
with month and day zero-padded to width 2 and the fixed `NO2` suffix. -/
def specUrl (d : LocalDate) : String :=
  "https://www.hvakosterstrommen.no/api/v1/prices/" ++ toString d.year ++ "/" ++
    zeroPadWidth2 (toString d.month) ++ "-" ++ zeroPadWidth2 (toString d.day) ++ "_NO2.json"

/-- Rust `{:02}` agrees with left zero-padding to width two on the civil
month/day range. -/
theorem pad2_eq_zeroPad : ∀ n < 32, pad2 n = zeroPadWidth2 (toString n) := by decide

/-- C8: for any local civil date, the URL built by `fetch` equals the spec's
template with month and day zero-padded to width 2 and the constant `NO2`
zone suffix. -/
theorem fetchUrl_matches_template (d : LocalDate) (hm : d.month ≤ 12) (hd : d.day ≤ 31) :
    fetchUrl d = specUrl d := by
  unfold fetchUrl specUrl
  rw [pad2_eq_zeroPad d.month (by omega), pad2_eq_zeroPad d.day (by omega)]

/-- Witness for C8 at 2025-01-15, including the fully evaluated URL. -/
theorem fetchUrl_matches_template_witness :
    fetchUrl ⟨2025, 1, 15⟩ = specUrl ⟨2025, 1, 15⟩ :=
  fetchUrl_matches_template ⟨2025, 1, 15⟩ (by decide) (by decide)

/-- Substring occurrence: the pattern is a prefix of some suffix. -/
def hasInfix (pat : List Char) : List Char → Bool
  | [] => pat.isEmpty
  | c :: cs => pat.isPrefixOf (c :: cs) || hasInfix pat cs

/-- Rust's `str::contains` with a string pattern, as char-list infix. -/
def strContainsSub (s pat : String) : Bool :=
  hasInfix pat.toList s.toList

/-- Rust's `str::contains` with a char pattern. -/
def strContainsChar (s : String) (c : Char) : Bool :=
  s.toList.contains c

/-- Rust's `str::ends_with`, as char-list suffix. -/
def strEndsWith (s pat : String) : Bool :=
  pat.toList.isSuffixOf s.toList

/-- An immutable snapshot of the filesystem as observed by `serve_font`.
`canonical` is `Path::canonicalize`, returning the absolute canonical path as
a component list (so that `Path::starts_with` is component-wise prefix);
`fileExists` is `Path::exists`; `readFile` is `tokio::fs::read`.  On a
consistent snapshot a path that canonicalizes successfully exists, which the
last field records. -/
structure FontFs where
  canonical : String → Option (List String)
  fileExists : String → Bool
  readFile : String → Option (List Nat)
  canonical_implies_exists :
    ∀ p, (canonical p).isSome = true → fileExists p = true

/-- The fixed font base directory. -/
def fontDir : String :=
  "src/font"

/-- `font_dir.join(&filename)` for the filenames that reach it (no slashes). -/
def fontPath (filename : String) : String :=
  fontDir ++ "/" ++ filename

/-- Response of the font endpoint: an HTTP error status, or a 200 with the
content-type and cache-control header values and the body bytes. -/
inductive FontResponse where
  | err (status : Nat)
  | ok (contentType : String) (cacheControl : String) (body : List Nat)
deriving DecidableEq

/-- The MIME-type selection inside `serve_font`, including its
`application/octet-stream` fallback arm. -/
def mimeType (filename : String) : String :=
  if strEndsWith filename ".woff2" then "font/woff2"
  else if strEndsWith filename ".woff" then "font/woff"
  else if strEndsWith filename ".ttf" then "font/ttf"
  else "application/octet-stream"

/-- The `serve_font` handler over a filesystem snapshot: filename validation,
canonicalization of base and file, component-prefix containment check,
existence check, then read and reply with headers. -/
def serve_font (fs : FontFs) (filename : String) : FontResponse :=
  if strContainsSub filename ".." || strContainsChar filename '/' ||
      strContainsChar filename '\\' then
    .err 400
  else if !strEndsWith filename ".woff2" && !strEndsWith filename ".woff" &&
      !strEndsWith filename ".ttf" then
    .err 400
  else
    match fs.canonical fontDir with
    | none => .err 500
    | some canonicalFontDir =>
      match fs.canonical (fontPath filename) with
      | none => .err 404
      | some canonicalFontPath =>
        if !canonicalFontDir.isPrefixOf canonicalFontPath then
          .err 403
        else if fs.fileExists (fontPath filename) then
          match fs.readFile (fontPath filename) with
          | none => .err 500
          | some fontData => .ok (mimeType filename) "public, max-age=31536000" fontData
        else
          .err 404

/-- Both validation checks bundled: the name is traversal-free and carries an
allowed font extension. -/
def validName (filename : String) : Bool :=
  !(strContainsSub filename ".." || strContainsChar filename '/' ||
      strContainsChar filename '\\') &&
    !(!strEndsWith filename ".woff2" && !strEndsWith filename ".woff" &&
      !strEndsWith filename ".ttf")

/-- C6: a filename containing `..`, `/` or `\`, or one without an allowed
font extension, is answered 400 on every filesystem snapshot — before any
path resolution or file access. -/
theorem serve_font_validation (fs : FontFs) (filename : String)
    (h : strContainsSub filename ".." = true ∨ strContainsChar filename '/' = true ∨
      strContainsChar filename '\\' = true ∨
      (strEndsWith filename ".woff2" = false ∧ strEndsWith filename ".woff" = false ∧
        strEndsWith filename ".ttf" = false)) :
    serve_font fs filename = .err 400 := by
  unfold serve_font
  rcases h with h | h | h | ⟨h1, h2, h3⟩
  · simp [h]
  · simp [h]
  · simp [h]
  · split
    · rfl
    · simp [h1, h2, h3]

/-- Witness for C6: a traversal attempt and a bad extension, on a snapshot
where the file in question would exist. -/
theorem serve_font_validation_witness :
    serve_font
        ⟨fun _ => some ["a"], fun _ => true, fun _ => some [], fun _ _ => rfl⟩
        "../secret.woff2" = .err 400 ∧
      serve_font
        ⟨fun _ => some ["a"], fun _ => true, fun _ => some [], fun _ _ => rfl⟩
        "Regular.css" = .err 400 :=
  ⟨serve_font_validation _ "../secret.woff2" (Or.inl (by decide)),
    serve_font_validation _ "Regular.css" (Or.inr (Or.inr (Or.inr (by decide))))⟩

/-- For a filename that passes validation, `serve_font` reduces to its path
resolution phase. -/
theorem serve_font_valid_eq (fs : FontFs) (filename : String)
    (hv : validName filename = true) :
    serve_font fs filename =
      match fs.canonical fontDir with
      | none => .err 500
      | some canonicalFontDir =>
        match fs.canonical (fontPath filename) with
        | none => .err 404
        | some canonicalFontPath =>
          if !canonicalFontDir.isPrefixOf canonicalFontPath then
            .err 403
          else if fs.fileExists (fontPath filename) then
            match fs.readFile (fontPath filename) with
            | none => .err 500
            | some fontData => .ok (mimeType filename) "public, max-age=31536000" fontData
          else
            .err 404 := by
  unfold validName at hv
  rw [Bool.and_eq_true] at hv
  obtain ⟨hc, he⟩ := hv
  rw [Bool.not_eq_true'] at hc he
  unfold serve_font
  rw [hc, he]
  rfl

/-- C7: past validation, the response follows the resolution state machine:
base canonicalization failure → 500, file canonicalization failure → 404,
escaping the base directory → 403, read failure → 500, otherwise 200 with the
extension-derived content type, the year-long cache header, and the file
bytes as body. -/
theorem serve_font_resolution (fs : FontFs) (filename : String)
    (hv : validName filename = true) :
    (fs.canonical fontDir = none → serve_font fs filename = .err 500) ∧
    (∀ cdir, fs.canonical fontDir = some cdir →
      (fs.canonical (fontPath filename) = none → serve_font fs filename = .err 404) ∧
      (∀ cfile, fs.canonical (fontPath filename) = some cfile →
        (cdir.isPrefixOf cfile = false → serve_font fs filename = .err 403) ∧
        (cdir.isPrefixOf cfile = true →
          (fs.readFile (fontPath filename) = none → serve_font fs filename = .err 500) ∧
          (∀ bytes, fs.readFile (fontPath filename) = some bytes →
            serve_font fs filename =
              .ok (mimeType filename) "public, max-age=31536000" bytes)))) := by
  refine ⟨fun h500 => ?_, fun cdir hdir => ⟨fun h404 => ?_, fun cfile hfile =>
    ⟨fun hpre => ?_, fun hpre => ⟨fun hread => ?_, fun bytes hread => ?_⟩⟩⟩⟩ <;>
    rw [serve_font_valid_eq fs filename hv]
  · rw [h500]
  · rw [hdir, h404]
  · simp only [hdir, hfile, hpre]
    rfl
  · have hex : fs.fileExists (fontPath filename) = true :=
      fs.canonical_implies_exists (fontPath filename) (by rw [hfile]; rfl)
    simp only [hdir, hfile, hpre, hex, hread]
    rfl
  · have hex : fs.fileExists (fontPath filename) = true :=
      fs.canonical_implies_exists (fontPath filename) (by rw [hfile]; rfl)
    simp only [hdir, hfile, hpre, hex, hread]
    rfl

/-- A concrete consistent filesystem snapshot with the base directory and one
regular font file present. -/
def fsWithFont : FontFs where
  canonical := fun p =>
    if p = "src/font" then some ["app", "src", "font"]
    else if p = "src/font/Regular.woff2" then some ["app", "src", "font", "Regular.woff2"]
    else none
  fileExists := fun p =>
    (if p = "src/font" then some ["app", "src", "font"]
     else if p = "src/font/Regular.woff2" then some ["app", "src", "font", "Regular.woff2"]
     else none).isSome
  readFile := fun p => if p = "src/font/Regular.woff2" then some [7, 8, 9] else none
  canonical_implies_exists := fun _ h => h

/-- Witness for C7: the happy path on the concrete snapshot, reaching the 200
response with the woff2 content type and the stored bytes. -/
theorem serve_font_resolution_witness :
    serve_font fsWithFont "Regular.woff2" =
      .ok (mimeType "Regular.woff2") "public, max-age=31536000" [7, 8, 9] :=
  ((((serve_font_resolution fsWithFont "Regular.woff2" (by decide)).2
      ["app", "src", "font"] (by decide)).2
      ["app", "src", "font", "Regular.woff2"] (by decide)).2
      (by decide)).2 [7, 8, 9] (by decide)

/-- Exhaustive description of the MIME selection: one of the three font types,
or the fallback, in which case all three extension tests failed. -/
theorem mimeType_cases (filename : String) :
    mimeType filename = "font/woff2" ∨ mimeType filename = "font/woff" ∨
      mimeType filename = "font/ttf" ∨
      (strEndsWith filename ".woff2" = false ∧ strEndsWith filename ".woff" = false ∧
        strEndsWith filename ".ttf" = false) := by
  unfold mimeType
  split
  · exact Or.inl rfl
  · split
    · exact Or.inr (Or.inl rfl)
    · split
      · exact Or.inr (Or.inr (Or.inl rfl))
      · rename_i h1 h2 h3
        exact Or.inr (Or.inr (Or.inr
          ⟨Bool.not_eq_true _ ▸ h1, Bool.not_eq_true _ ▸ h2, Bool.not_eq_true _ ▸ h3⟩))

/-- C9: the `application/octet-stream` fallback is unreachable — every 200
response of the font endpoint carries the extension-derived content type,
which is one of the three font MIME types. -/
theorem serve_font_mime_types (fs : FontFs) (filename : String)
    (ct cc : String) (body : List Nat)
    (h : serve_font fs filename = .ok ct cc body) :
    ct = mimeType filename ∧
      (ct = "font/woff2" ∨ ct = "font/woff" ∨ ct = "font/ttf") ∧
      ct ≠ "application/octet-stream" := by
  unfold serve_font at h
  split at h
  · exact FontResponse.noConfusion h
  · split at h
    · exact FontResponse.noConfusion h
    · rename_i hext
      split at h
      · exact FontResponse.noConfusion h
      · split at h
        · exact FontResponse.noConfusion h
        · split at h
          · exact FontResponse.noConfusion h
          · split at h
            · split at h
              · exact FontResponse.noConfusion h
              · obtain ⟨h1, h2, h3⟩ := FontResponse.ok.inj h
                subst h1
                have hmem : mimeType filename = "font/woff2" ∨
                    mimeType filename = "font/woff" ∨ mimeType filename = "font/ttf" := by
                  rcases mimeType_cases filename with hA | hA | hA | ⟨e1, e2, e3⟩
                  · exact Or.inl hA
                  · exact Or.inr (Or.inl hA)
                  · exact Or.inr (Or.inr hA)
                  · exact absurd (by simp [e1, e2, e3]) hext
                refine ⟨rfl, hmem, ?_⟩
                rcases hmem with hA | hA | hA <;> (rw [hA]; decide)
            · exact FontResponse.noConfusion h

/-- Witness for C9: the 200 response on the concrete snapshot carries
`font/woff2`. -/
theorem serve_font_mime_types_witness :
    "font/woff2" = mimeType "Regular.woff2" ∧
      ("font/woff2" = "font/woff2" ∨ "font/woff2" = "font/woff" ∨
        "font/woff2" = "font/ttf") ∧
      "font/woff2" ≠ "application/octet-stream" :=
  serve_font_mime_types fsWithFont "Regular.woff2" "font/woff2"
    "public, max-age=31536000" [7, 8, 9] (by decide)

/-- A 400 from the font endpoint happens exactly when the filename fails
validation, independently of the filesystem. -/
theorem serve_font_400_iff (fs : FontFs) (filename : String) :
    serve_font fs filename = .err 400 ↔ validName filename = false := by
  constructor
  · intro h
    by_contra hv
    rw [Bool.not_eq_false] at hv
    rw [serve_font_valid_eq fs filename hv] at h
    split at h
    · exact absurd (FontResponse.err.inj h) (by decide)
    · split at h
      · exact absurd (FontResponse.err.inj h) (by decide)
      · split at h
        · exact absurd (FontResponse.err.inj h) (by decide)
        · split at h
          · split at h
            · exact absurd (FontResponse.err.inj h) (by decide)
            · exact FontResponse.noConfusion h
          · exact absurd (FontResponse.err.inj h) (by decide)
  · intro h
    unfold validName at h
    unfold serve_font
    rcases Bool.and_eq_false_iff.mp h with hc | he
    · rw [Bool.not_eq_false'] at hc
      rw [hc]
      rfl
    · rw [Bool.not_eq_false'] at he
      rw [he]
      split
      · rfl
      · rfl

/-- C10: the 400 decision depends only on the filename string — for any two
filesystem snapshots, a filename answered 400 under one is answered 400 under
the other, so no filesystem operation influences validation. -/
theorem serve_font_400_fs_independent (fsa fsb : FontFs) (filename : String)
    (h : serve_font fsa filename = .err 400) :
    serve_font fsb filename = .err 400 :=
  (serve_font_400_iff fsb filename).mpr ((serve_font_400_iff fsa filename).mp h)

/-- A second, different concrete snapshot: an empty filesystem. -/
def fsBare : FontFs where
  canonical := fun _ => none
  fileExists := fun _ => (none : Option (List String)).isSome
  readFile := fun _ => none
  canonical_implies_exists := fun _ h => h

/-- Witness for C10: the same traversal filename is answered 400 on two
different snapshots, one where the target exists and one where nothing does. -/
theorem serve_font_400_fs_independent_witness :
    serve_font fsBare "..Regular.woff2" = .err 400 :=
  serve_font_400_fs_independent fsWithFont fsBare "..Regular.woff2" (by decide)

end Elektron
